import Mathlib

/-!
Verification of the public profile page of the pdims repository
(`src/pages/UserProfile.tsx`): the URL formatter, the theme registry,
the profile data loader with its settings normalization, and the
background-precedence rendering logic.

JavaScript strings are modelled by `String`, nullable/possibly-missing
fields by `Option`, JS truthiness of strings by emptiness tests, the
`||` defaulting idiom by `jsOrStr`, and the two external effects
(`crypto.randomUUID` and `JSON.parse`) by explicit function parameters.
-/

namespace Pdims

/-- `charsPrefix p l` holds when the character list `p` is a prefix of `l`;
this is the code-unit comparison performed by `String.prototype.startsWith`. -/
def charsPrefix : List Char → List Char → Bool
  | [], _ => true
  | _ :: _, [] => false
  | c :: cs, d :: ds => c == d && charsPrefix cs ds

/-- JS `s.startsWith(p)`. -/
def jsStartsWith (s p : String) : Bool :=
  charsPrefix p.data s.data

/-- JS `x || d` for a possibly-missing string `x`: a missing value and the
empty string are falsy, every other string is kept. -/
def jsOrStr (o : Option String) (d : String) : String :=
  match o with
  | some s => if s = "" then d else s
  | none => d

/-- A theme registry entry (`interface Theme`): id plus CSS background class. -/
structure Theme where
  id : String
  background : String
deriving Repr, DecidableEq

/-- The `elegant` entry of `THEMES`. -/
def elegantTheme : Theme :=
  { id := "elegant"
    background := "bg-gradient-to-b from-purple-50 to-purple-100 dark:from-purple-950 dark:to-slate-950" }

/-- The `nature` entry of `THEMES`. -/
def natureTheme : Theme :=
  { id := "nature"
    background := "bg-gradient-to-b from-green-50 to-emerald-100 dark:from-green-950 dark:to-slate-950" }

/-- The `ocean` entry of `THEMES`. -/
def oceanTheme : Theme :=
  { id := "ocean"
    background := "bg-gradient-to-b from-blue-50 to-cyan-100 dark:from-blue-950 dark:to-slate-950" }

/-- The `sunset` entry of `THEMES`. -/
def sunsetTheme : Theme :=
  { id := "sunset"
    background := "bg-gradient-to-b from-orange-50 to-red-100 dark:from-orange-950 dark:to-slate-950" }

/-- The static theme registry `THEMES`, as the lookup `THEMES[key]`
(`none` models JS `undefined` for a key that is not present). -/
def THEMES : String → Option Theme
  | "elegant" => some elegantTheme
  | "nature" => some natureTheme
  | "ocean" => some oceanTheme
  | "sunset" => some sunsetTheme
  | _ => none

/-- Resolved theme at the render site:
`THEMES[settings?.theme_id || 'elegant'] || THEMES.elegant`.
The argument is `settings?.theme_id` (optional chaining gives `none` when
settings are absent). -/
def resolveTheme (themeId : Option String) : Theme :=
  (THEMES (jsOrStr themeId "elegant")).getD elegantTheme

/-- `formatUrl`: ensure a URL has a protocol. -/
def formatUrl (url : String) : String :=
  if url = "" then ""
  else if jsStartsWith url "http://" || jsStartsWith url "https://" then url
  else if jsStartsWith url "//" then "https:" ++ url
  else "https://" ++ url

/-- A raw link sub-record as stored in the settings row: every field may be
missing or null. -/
structure RawLink where
  id : Option String := none
  title : Option String := none
  url : Option String := none
  icon : Option String := none
  display : Option String := none
  photo_url : Option String := none
deriving Repr, DecidableEq

/-- A fully populated `Link` as produced by the loader. -/
structure Link where
  id : String
  title : String
  url : String
  icon : String
  display : String
  photo_url : String
deriving Repr, DecidableEq

/-- One step of the `settings.links.map` normalization; `freshId` is the
value `crypto.randomUUID()` would return for this entry. -/
def normalizeLink (freshId : String) (l : RawLink) : Link :=
  { id := jsOrStr l.id freshId
    title := jsOrStr l.title ""
    url := formatUrl (jsOrStr l.url "")
    icon := jsOrStr l.icon "link"
    display := jsOrStr l.display "both"
    photo_url := jsOrStr l.photo_url "" }

/-- The dynamic shape of the stored `links` column: absent/null, present but
not an array, or an array of raw link sub-records. -/
inductive RawLinksField where
  | missing
  | notArray
  | arr (links : List RawLink)
deriving Repr, DecidableEq

/-- `processedLinks` with an explicit position counter: each entry receives
the fresh id `genId i` for its position `i`, modelling the successive
`crypto.randomUUID()` calls. -/
def processedLinksAux (genId : Nat → String) (i : Nat) : List RawLink → List Link
  | [] => []
  | l :: ls => normalizeLink (genId i) l :: processedLinksAux genId (i + 1) ls

/-- The loader's `processedLinks` value: `[]` unless
`settings.links && Array.isArray(settings.links)`. -/
def processedLinks (genId : Nat → String) : RawLinksField → List Link
  | .arr ls => processedLinksAux genId 0 ls
  | _ => []

/-- Parsed background-style sub-document (`{ id, url }`). -/
structure BackgroundStyle where
  id : String
  url : String
deriving Repr, DecidableEq

/-- A raw `profile_settings` row as returned by the backend: loosely typed,
every field possibly missing. `background_style` is a serialized string. -/
structure RawSettings where
  links : RawLinksField := .missing
  theme_id : Option String := none
  is_dark_mode : Option Bool := none
  font_style : Option String := none
  layout_type : Option String := none
  background_style : Option String := none
  favicon_url : Option String := none
deriving Repr, DecidableEq

/-- Modelled from the spec: the repository imports `LAYOUT_TYPES.LINKS` from
`src/constants/layouts`, which is not part of the sources; the spec fixes the
default layout to `"links"`. -/
def LAYOUT_TYPES_LINKS : String := "links"

/-- The normalized `ProfileSettings` held by the page after a successful load. -/
structure ProfileSettings where
  links : List Link
  theme_id : String
  is_dark_mode : Bool
  font_style : String
  layout_type : String
  background_style : Option BackgroundStyle := none
  favicon_url : Option String := none
deriving Repr, DecidableEq

/-- Construction of `typedSettings` in `loadProfile`, including the
`background_style` block: `parseBg` models `JSON.parse` on the serialized
sub-document (`none` = the parse throws), `genId` the uuid supply. -/
def typedSettings (genId : Nat → String) (parseBg : String → Option BackgroundStyle)
    (raw : RawSettings) : ProfileSettings :=
  { links := processedLinks genId raw.links
    theme_id := jsOrStr raw.theme_id "elegant"
    is_dark_mode := raw.is_dark_mode.getD false
    font_style := jsOrStr raw.font_style "sans"
    layout_type := jsOrStr raw.layout_type LAYOUT_TYPES_LINKS
    favicon_url := raw.favicon_url
    background_style :=
      match raw.background_style with
      | some s => if s = "" then none else parseBg s
      | none => none }

/-- A profile row. -/
structure Profile where
  username : String
  full_name : String
  bio : String
  avatar_url : String
  id : String
  custom_title : Option String := none
deriving Repr, DecidableEq

/-- An error value returned by a backend query. `isErrorInstance` records
whether the JS value satisfies `instanceof Error` (the branch the code
tests before reading `.message`). -/
structure QueryErr where
  isErrorInstance : Bool
  message : String
deriving Repr, DecidableEq

/-- A toast notification as fired through `toast({...})`. -/
structure Toast where
  title : String
  description : String
  variant : String
deriving Repr, DecidableEq

/-- Outcome of one run of `loadProfile`:
`navigateNotFound` is the missing-username redirect to `/404`;
`failure` carries the local error message set via `setError` and the toast
fired on that path, if any; `success` carries the state committed via
`setProfile`/`setSettings`. -/
inductive LoadOutcome where
  | navigateNotFound (errMsg : String)
  | failure (errMsg : String) (toastFired : Option Toast)
  | success (profile : Profile) (settings : ProfileSettings)
deriving Repr, DecidableEq

/-- The body of `loadProfile`. Its two backend lookups are modelled by the
already-resolved results `profileRes` and `settingsRes`
(`Except.error` = query error, `Except.ok none` = no row). -/
def loadProfile (genId : Nat → String) (parseBg : String → Option BackgroundStyle)
    (username : Option String)
    (profileRes : Except QueryErr (Option Profile))
    (settingsRes : Except QueryErr (Option RawSettings)) : LoadOutcome :=
  match username with
  | none => .navigateNotFound "Username is required"
  | some u =>
    if u = "" then .navigateNotFound "Username is required"
    else
      match profileRes with
      | .error e =>
          .failure "Failed to load profile"
            (some { title := "Error"
                    description := "Failed to load profile: " ++
                      (if e.isErrorInstance then e.message else "Unknown error")
                    variant := "destructive" })
      | .ok none =>
          .failure "Profile not found"
            (some { title := "Not Found"
                    description := "This digital identity does not exist"
                    variant := "destructive" })
      | .ok (some profile) =>
        match settingsRes with
        | .error _ =>
            .failure "Error loading profile settings"
              (some { title := "Error"
                      description := "Failed to load profile settings"
                      variant := "destructive" })
        | .ok none => .failure "Profile settings not found" none
        | .ok (some raw) => .success profile (typedSettings genId parseBg raw)

/-- `hasBackgroundImage`: the background-style override is present, its id is
not the sentinel `"none"`, and its url is truthy (non-empty). -/
def hasBackgroundImage (s : ProfileSettings) : Bool :=
  match s.background_style with
  | some bg => bg.id != "none" && bg.url != ""
  | none => false

/-- The background-related pieces of the rendered success view:
the theme class on the outer div, the inline `backgroundImage` style, the
overlay class on the inner div, and `textShadowClass`. -/
structure RenderConfig where
  themeClass : String
  backgroundImage : Option String
  overlayClass : String
  textShadowClass : String
deriving Repr, DecidableEq

/-- Background resolution of the success view of `UserProfile`. -/
def renderProfilePage (s : ProfileSettings) : RenderConfig :=
  let theme := resolveTheme (some s.theme_id)
  let hasBg := hasBackgroundImage s
  { themeClass := if hasBg then "" else theme.background
    backgroundImage := if hasBg then s.background_style.map (fun bg => bg.url) else none
    overlayClass := if hasBg then "bg-black/40 backdrop-blur-sm" else ""
    textShadowClass := if hasBg then "text-shadow" else "" }

end Pdims

namespace Pdims

theorem charsPrefix_append_self (p t : List Char) : charsPrefix p (p ++ t) = true := by
  induction p with
  | nil => rfl
  | cons c cs ih => simp [charsPrefix, ih]

theorem charsPrefix_eq_append (p l : List Char) (h : charsPrefix p l = true) :
    ∃ t, l = p ++ t := by
  induction p generalizing l with
  | nil => exact ⟨l, rfl⟩
  | cons c cs ih =>
    cases l with
    | nil => simp [charsPrefix] at h
    | cons d ds =>
      simp only [charsPrefix, Bool.and_eq_true, beq_iff_eq] at h
      obtain ⟨t, ht⟩ := ih ds h.2
      exact ⟨t, by simp [h.1, ht]⟩

theorem jsStartsWith_append (p t : String) : jsStartsWith (p ++ t) p = true := by
  unfold jsStartsWith
  rw [String.data_append]
  exact charsPrefix_append_self p.data t.data

theorem fu_proto (s : String)
    (h : (jsStartsWith s "http://" || jsStartsWith s "https://") = true) :
    formatUrl s = s := by
  have hne : s ≠ "" := by
    rintro rfl
    revert h
    decide
  unfold formatUrl
  rw [if_neg hne, if_pos h]

theorem fu_slashslash (s : String) (h : jsStartsWith s "//" = true) :
    formatUrl s = "https:" ++ s := by
  obtain ⟨t, ht0⟩ := charsPrefix_eq_append "//".data s.data h
  have ht : s.data = '/' :: '/' :: t := ht0
  have hne : s ≠ "" := by
    rintro rfl
    exact List.noConfusion ht
  have hh1 : jsStartsWith s "http://" = false := by
    unfold jsStartsWith
    rw [ht]
    rfl
  have hh2 : jsStartsWith s "https://" = false := by
    unfold jsStartsWith
    rw [ht]
    rfl
  unfold formatUrl
  rw [if_neg hne, if_neg (by simp [hh1, hh2]), if_pos h]

theorem fu_other (s : String) (hne : s ≠ "")
    (h1 : (jsStartsWith s "http://" || jsStartsWith s "https://") = false)
    (h2 : jsStartsWith s "//" = false) :
    formatUrl s = "https://" ++ s := by
  unfold formatUrl
  rw [if_neg hne, if_neg (by simp [h1]), if_neg (by simp [h2])]

/-- Claim C2: the contract of `formatUrl`: empty input maps to empty output,
inputs beginning with a protocol are returned unchanged, inputs beginning
with `//` are prefixed with `https:`, and every other non-empty input is
prefixed with `https://`. -/
theorem c2_formatUrl_contract (s : String) :
    (s = "" → formatUrl s = "")
    ∧ ((jsStartsWith s "http://" = true ∨ jsStartsWith s "https://" = true) → formatUrl s = s)
    ∧ (jsStartsWith s "//" = true → formatUrl s = "https:" ++ s)
    ∧ (s ≠ "" → jsStartsWith s "http://" = false → jsStartsWith s "https://" = false →
        jsStartsWith s "//" = false → formatUrl s = "https://" ++ s) := by
  refine ⟨fun h => by subst h; decide, ?_, fu_slashslash s, ?_⟩
  · intro h
    exact fu_proto s (by rcases h with h | h <;> simp [h])
  · intro hne h1 h2 h3
    exact fu_other s hne (by simp [h1, h2]) h3

/-- Witness for C2: the four contract cases evaluated at concrete inputs. -/
theorem c2_formatUrl_contract_witness :
    formatUrl "" = "" ∧ formatUrl "http://x" = "http://x" ∧
    formatUrl "//x" = "https:" ++ "//x" ∧ formatUrl "example.com" = "https://" ++ "example.com" :=
  ⟨(c2_formatUrl_contract "").1 rfl,
   (c2_formatUrl_contract "http://x").2.1 (Or.inl (by decide)),
   (c2_formatUrl_contract "//x").2.2.1 (by decide),
   (c2_formatUrl_contract "example.com").2.2.2 (by decide) (by decide) (by decide) (by decide)⟩

/-- Claim C3: `formatUrl` is idempotent. -/
theorem c3_formatUrl_idempotent (s : String) : formatUrl (formatUrl s) = formatUrl s := by
  by_cases h0 : s = ""
  · subst h0
    rfl
  · cases hb : (jsStartsWith s "http://" || jsStartsWith s "https://") with
    | false =>
        cases hss : jsStartsWith s "//" with
        | false =>
            rw [fu_other s h0 hb hss]
            exact fu_proto _ (by rw [jsStartsWith_append "https://" s]; simp)
        | true =>
            rw [fu_slashslash s hss]
            obtain ⟨t, ht0⟩ := charsPrefix_eq_append "//".data s.data hss
            have ht : s.data = '/' :: '/' :: t := ht0
            have hd1 : "https:".data = ['h', 't', 't', 'p', 's', ':'] := by decide
            have hd2 : "https://".data = ['h', 't', 't', 'p', 's', ':', '/', '/'] := by decide
            have hx : ("https:" ++ s).data = "https://".data ++ t := by
              rw [String.data_append, ht, hd1, hd2]
              simp
            have hsw : jsStartsWith ("https:" ++ s) "https://" = true := by
              unfold jsStartsWith
              rw [hx]
              exact charsPrefix_append_self _ _
            exact fu_proto _ (by rw [hsw]; simp)
    | true =>
        rw [fu_proto s hb]
        exact fu_proto s hb

end Pdims

namespace Pdims

/-- Claim C4: link normalization fills every field: a missing id becomes the
fresh generated id, a missing title the empty string, the url is passed
through `formatUrl`, a missing icon becomes `"link"`, a missing display mode
`"both"`, a missing photo URL the empty string; in particular the raw link
with only `url = "example.com"` normalizes to the fully populated link. -/
theorem c4_link_normalization (freshId : String) (l : RawLink) :
    (l.id = none → (normalizeLink freshId l).id = freshId)
    ∧ (l.title = none → (normalizeLink freshId l).title = "")
    ∧ (∀ u, l.url = some u → (normalizeLink freshId l).url = formatUrl u)
    ∧ (l.url = none → (normalizeLink freshId l).url = "")
    ∧ (l.icon = none → (normalizeLink freshId l).icon = "link")
    ∧ (l.display = none → (normalizeLink freshId l).display = "both")
    ∧ (l.photo_url = none → (normalizeLink freshId l).photo_url = "")
    ∧ normalizeLink freshId { url := some "example.com" } =
        { id := freshId, title := "", url := "https://example.com", icon := "link",
          display := "both", photo_url := "" } := by
  have hex : formatUrl "example.com" = "https://example.com" := by decide
  refine ⟨fun h => by simp [normalizeLink, jsOrStr, h],
          fun h => by simp [normalizeLink, jsOrStr, h],
          ?_,
          fun h => by simp [normalizeLink, jsOrStr, h]; decide,
          fun h => by simp [normalizeLink, jsOrStr, h],
          fun h => by simp [normalizeLink, jsOrStr, h],
          fun h => by simp [normalizeLink, jsOrStr, h],
          by simp [normalizeLink, jsOrStr, hex]⟩
  intro u hu
  by_cases hu0 : u = ""
  · simp [normalizeLink, jsOrStr, hu, hu0]
  · simp [normalizeLink, jsOrStr, hu, hu0]

/-- Witness for C4: normalization of `\x7burl: "example.com"\x7d` with fresh id
`"uuid-0"`. -/
theorem c4_link_normalization_witness :
    (normalizeLink "uuid-0" { url := some "example.com" }).id = "uuid-0"
    ∧ (normalizeLink "uuid-0" { url := some "example.com" }).url = formatUrl "example.com"
    ∧ normalizeLink "uuid-0" { url := some "example.com" } =
        { id := "uuid-0", title := "", url := "https://example.com", icon := "link",
          display := "both", photo_url := "" } :=
  ⟨(c4_link_normalization "uuid-0" { url := some "example.com" }).1 rfl,
   (c4_link_normalization "uuid-0" { url := some "example.com" }).2.2.1 "example.com" rfl,
   (c4_link_normalization "uuid-0" { url := some "example.com" }).2.2.2.2.2.2.2⟩

/-- Claim C5: loader defaulting of the settings record: each missing field
receives its default (`theme_id = "elegant"`, `is_dark_mode = false`,
`font_style = "sans"`, `layout_type = "links"`), and the record holding only
`links: []` normalizes to exactly those defaults. -/
theorem c5_settings_defaults (genId : Nat → String)
    (parseBg : String → Option BackgroundStyle) (raw : RawSettings) :
    (raw.theme_id = none → (typedSettings genId parseBg raw).theme_id = "elegant")
    ∧ (raw.is_dark_mode = none → (typedSettings genId parseBg raw).is_dark_mode = false)
    ∧ (raw.font_style = none → (typedSettings genId parseBg raw).font_style = "sans")
    ∧ (raw.layout_type = none → (typedSettings genId parseBg raw).layout_type = "links")
    ∧ typedSettings genId parseBg { links := .arr [] } =
        { links := [], theme_id := "elegant", is_dark_mode := false, font_style := "sans",
          layout_type := "links", background_style := none, favicon_url := none } := by
  refine ⟨fun h => by simp [typedSettings, jsOrStr, h],
          fun h => by simp [typedSettings, h],
          fun h => by simp [typedSettings, jsOrStr, h],
          fun h => by simp [typedSettings, jsOrStr, h, LAYOUT_TYPES_LINKS],
          by simp [typedSettings, jsOrStr, LAYOUT_TYPES_LINKS, processedLinks,
                   processedLinksAux]⟩

/-- Witness for C5: the defaults at the record holding only `links: []`. -/
theorem c5_settings_defaults_witness :
    (typedSettings (fun _ => "u") (fun _ => none) { links := .arr [] }).theme_id = "elegant"
    ∧ (typedSettings (fun _ => "u") (fun _ => none) { links := .arr [] }).is_dark_mode = false
    ∧ (typedSettings (fun _ => "u") (fun _ => none) { links := .arr [] }).font_style = "sans"
    ∧ (typedSettings (fun _ => "u") (fun _ => none) { links := .arr [] }).layout_type = "links" :=
  ⟨(c5_settings_defaults (fun _ => "u") (fun _ => none) { links := .arr [] }).1 rfl,
   (c5_settings_defaults (fun _ => "u") (fun _ => none) { links := .arr [] }).2.1 rfl,
   (c5_settings_defaults (fun _ => "u") (fun _ => none) { links := .arr [] }).2.2.1 rfl,
   (c5_settings_defaults (fun _ => "u") (fun _ => none) { links := .arr [] }).2.2.2.1 rfl⟩

/-- Claim C6: theme resolution is total with `elegant` as fallback: any id
missing from the registry (and an absent id) resolves to the `elegant`
entry, and each of the four built-in ids resolves to its own entry. -/
theorem c6_theme_fallback (t : String) :
    (THEMES t = none → resolveTheme (some t) = elegantTheme)
    ∧ resolveTheme none = elegantTheme
    ∧ resolveTheme (some "elegant") = elegantTheme
    ∧ resolveTheme (some "nature") = natureTheme
    ∧ resolveTheme (some "ocean") = oceanTheme
    ∧ resolveTheme (some "sunset") = sunsetTheme := by
  refine ⟨?_, by decide, by decide, by decide, by decide, by decide⟩
  intro h
  by_cases ht : t = ""
  · subst ht
    decide
  · simp [resolveTheme, jsOrStr, ht, h]

/-- Witness for C6: the unknown id `"unknown"` resolves to the elegant entry. -/
theorem c6_theme_fallback_witness : resolveTheme (some "unknown") = elegantTheme :=
  (c6_theme_fallback "unknown").1 (by decide)

theorem processedLinksAux_length (genId : Nat → String) (i : Nat) (ls : List RawLink) :
    (processedLinksAux genId i ls).length = ls.length := by
  induction ls generalizing i with
  | nil => rfl
  | cons l ls ih => simp [processedLinksAux, ih]

theorem processedLinksAux_get (genId : Nat → String) (k : Nat) (ls : List RawLink)
    (i : Nat) (h1 : i < (processedLinksAux genId k ls).length) (h2 : i < ls.length) :
    (processedLinksAux genId k ls).get ⟨i, h1⟩ = normalizeLink (genId (k + i)) (ls.get ⟨i, h2⟩) := by
  induction ls generalizing k i with
  | nil => exact absurd h2 (by simp)
  | cons l ls ih =>
    cases i with
    | zero => simp [processedLinksAux]
    | succ n =>
      have hn1 : n < (processedLinksAux genId (k + 1) ls).length := by
        have hl := h1
        rw [processedLinksAux_length] at hl
        rw [processedLinksAux_length]
        simp at hl
        omega
      have hn2 : n < ls.length := by
        simp at h2
        omega
      have hkn : k + 1 + n = k + (n + 1) := by omega
      calc (processedLinksAux genId k (l :: ls)).get ⟨n + 1, h1⟩
      _ = (processedLinksAux genId (k + 1) ls).get ⟨n, hn1⟩ := rfl
      _ = normalizeLink (genId (k + 1 + n)) (ls.get ⟨n, hn2⟩) := ih (k + 1) n hn1 hn2
      _ = normalizeLink (genId (k + (n + 1))) ((l :: ls).get ⟨n + 1, h2⟩) := by rw [hkn]; rfl

/-- Claim C10: link normalization preserves length and relative order of the
raw links array, normalizing position by position; an absent or non-array
links field yields the empty list. -/
theorem c10_links_order (genId : Nat → String) (parseBg : String → Option BackgroundStyle)
    (raw : RawSettings) :
    (∀ ls, raw.links = .arr ls →
      (typedSettings genId parseBg raw).links.length = ls.length
      ∧ ∀ (i : Nat) (h1 : i < (typedSettings genId parseBg raw).links.length)
          (h2 : i < ls.length),
          (typedSettings genId parseBg raw).links.get ⟨i, h1⟩ =
            normalizeLink (genId i) (ls.get ⟨i, h2⟩))
    ∧ ((raw.links = .missing ∨ raw.links = .notArray) →
        (typedSettings genId parseBg raw).links = []) := by
  constructor
  · intro ls hls
    have hlinks : (typedSettings genId parseBg raw).links = processedLinksAux genId 0 ls := by
      simp [typedSettings, processedLinks, hls]
    constructor
    · rw [hlinks, processedLinksAux_length]
    · intro i h1 h2
      have h1a : i < (processedLinksAux genId 0 ls).length := by
        rw [← hlinks]
        exact h1
      have hmain := processedLinksAux_get genId 0 ls i h1a h2
      rw [Nat.zero_add] at hmain
      rw [List.get_of_eq hlinks ⟨i, h1⟩]
      exact hmain
  · intro h
    rcases h with h | h <;> simp [typedSettings, processedLinks, h]

/-- Witness for C10: a one-entry array keeps length one, and an absent links
field yields the empty list. -/
theorem c10_links_order_witness :
    (typedSettings (fun _ => "u") (fun _ => none)
        { links := .arr [{ url := some "a" }] }).links.length = 1
    ∧ (typedSettings (fun _ => "u") (fun _ => none) { links := .missing }).links = [] :=
  ⟨((c10_links_order (fun _ => "u") (fun _ => none)
      { links := .arr [{ url := some "a" }] }).1 [{ url := some "a" }] rfl).1,
   (c10_links_order (fun _ => "u") (fun _ => none) { links := .missing }).2 (Or.inl rfl)⟩

end Pdims

namespace Pdims

theorem hasBackgroundImage_true_iff (s : ProfileSettings) :
    hasBackgroundImage s = true ↔
      ∃ bg, s.background_style = some bg ∧ bg.id ≠ "none" ∧ bg.url ≠ "" := by
  cases hbg : s.background_style with
  | none => simp [hasBackgroundImage, hbg]
  | some bg => simp [hasBackgroundImage, hbg, Bool.and_eq_true, bne_iff_ne]

/-- Claim C1: the page uses the background image with the dimming/blur
overlay and the text-shadow flag exactly when the background-style override
is present with id not `"none"` and a non-empty url; in every other case the
resolved theme background class is used with no overlay and no text-shadow. -/
theorem c1_background_precedence (s : ProfileSettings) :
    (((renderProfilePage s).backgroundImage.isSome = true
      ∧ (renderProfilePage s).overlayClass = "bg-black/40 backdrop-blur-sm"
      ∧ (renderProfilePage s).textShadowClass = "text-shadow")
     ↔ ∃ bg, s.background_style = some bg ∧ bg.id ≠ "none" ∧ bg.url ≠ "")
    ∧ ((¬ ∃ bg, s.background_style = some bg ∧ bg.id ≠ "none" ∧ bg.url ≠ "") →
        (renderProfilePage s).backgroundImage = none
        ∧ (renderProfilePage s).themeClass = (resolveTheme (some s.theme_id)).background
        ∧ (renderProfilePage s).overlayClass = ""
        ∧ (renderProfilePage s).textShadowClass = "") := by
  have hiff := hasBackgroundImage_true_iff s
  cases hb : hasBackgroundImage s with
  | false =>
    rw [hb] at hiff
    constructor
    · simp [renderProfilePage, hb]
      intro bg hbg hid
      by_contra hurl
      exact absurd (hiff.mpr ⟨bg, hbg, hid, hurl⟩) (by simp)
    · intro _
      simp [renderProfilePage, hb]
  | true =>
    have hex := hiff.mp (by rw [hb])
    obtain ⟨bg, hbg, hid, hurl⟩ := hex
    constructor
    · simp only [renderProfilePage, hb, if_pos]
      constructor
      · intro _
        exact ⟨bg, hbg, hid, hurl⟩
      · intro _
        simp [hbg]
    · intro hne
      exact absurd ⟨bg, hbg, hid, hurl⟩ hne

/-- Witness for C1: the settings value of the spec scenario
(id `"none"`, empty url, theme `elegant`) takes the theme branch with no
overlay and no text-shadow. -/
theorem c1_background_precedence_witness :
    (renderProfilePage
        { links := [], theme_id := "elegant", is_dark_mode := false, font_style := "sans",
          layout_type := "links", background_style := some { id := "none", url := "" },
          favicon_url := none }).themeClass = elegantTheme.background
    ∧ (renderProfilePage
        { links := [], theme_id := "elegant", is_dark_mode := false, font_style := "sans",
          layout_type := "links", background_style := some { id := "none", url := "" },
          favicon_url := none }).overlayClass = ""
    ∧ (renderProfilePage
        { links := [], theme_id := "elegant", is_dark_mode := false, font_style := "sans",
          layout_type := "links", background_style := some { id := "none", url := "" },
          favicon_url := none }).textShadowClass = "" := by
  have h := (c1_background_precedence
    { links := [], theme_id := "elegant", is_dark_mode := false, font_style := "sans",
      layout_type := "links", background_style := some { id := "none", url := "" },
      favicon_url := none }).2 (by rintro ⟨bg, hbg, hid, hurl⟩
                                   rw [Option.some.injEq] at hbg
                                   subst hbg
                                   exact hid rfl)
  refine ⟨?_, h.2.2.1, h.2.2.2⟩
  rw [h.2.1]
  decide

/-- Claim C7 as stated is refuted: for an error value that is not an
`instanceof Error` (the usual shape of a backend query error object), the
notification carries `"Unknown error"` instead of the original message; two
distinct messages produce the identical notification. -/
theorem c7_load_error_counterexample :
    loadProfile (fun _ => "u") (fun _ => none) (some "alice")
        (.error { isErrorInstance := false, message := "boom" }) (.ok none)
      = .failure "Failed to load profile"
          (some { title := "Error", description := "Failed to load profile: Unknown error",
                  variant := "destructive" })
    ∧ loadProfile (fun _ => "u") (fun _ => none) (some "alice")
        (.error { isErrorInstance := false, message := "zap" }) (.ok none)
      = .failure "Failed to load profile"
          (some { title := "Error", description := "Failed to load profile: Unknown error",
                  variant := "destructive" })
    ∧ ("Failed to load profile: Unknown error" : String)
        ≠ "Failed to load profile: " ++ "boom" := by
  refine ⟨by decide, by decide, by decide⟩

/-- Claim C7, amended: on a profile query error the loader fails with the
"load error" kind; the notification preserves the original message exactly
when the error value is an `instanceof Error`, and otherwise reports
`"Unknown error"`. -/
theorem c7_load_error_message (genId : Nat → String)
    (parseBg : String → Option BackgroundStyle) (u : String) (hu : u ≠ "")
    (sr : Except QueryErr (Option RawSettings)) (e : QueryErr) :
    (e.isErrorInstance = true →
      loadProfile genId parseBg (some u) (.error e) sr
        = .failure "Failed to load profile"
            (some { title := "Error", description := "Failed to load profile: " ++ e.message,
                    variant := "destructive" }))
    ∧ (e.isErrorInstance = false →
      loadProfile genId parseBg (some u) (.error e) sr
        = .failure "Failed to load profile"
            (some { title := "Error", description := "Failed to load profile: Unknown error",
                    variant := "destructive" })) := by
  constructor <;> intro h <;> simp [loadProfile, hu, h]

/-- Witness for the amended C7: a genuine `Error` instance has its message
appended to the notification text. -/
theorem c7_load_error_message_witness :
    loadProfile (fun _ => "u") (fun _ => none) (some "alice")
        (.error { isErrorInstance := true, message := "boom" }) (.ok none)
      = .failure "Failed to load profile"
          (some { title := "Error", description := "Failed to load profile: " ++ "boom",
                  variant := "destructive" }) :=
  (c7_load_error_message (fun _ => "u") (fun _ => none) "alice" (by decide) (.ok none)
    { isErrorInstance := true, message := "boom" }).1 rfl

/-- Claim C8: a successful profile lookup followed by an absent settings row
ends in the settings-missing failure, whose inline message is distinct from
the profile-not-found message, and fires no toast; the settings load-error
path does fire a toast. -/
theorem c8_settings_missing (genId : Nat → String)
    (parseBg : String → Option BackgroundStyle) (u : String) (hu : u ≠ "") (p : Profile) :
    loadProfile genId parseBg (some u) (.ok (some p)) (.ok none)
      = .failure "Profile settings not found" none
    ∧ ("Profile settings not found" : String) ≠ "Profile not found"
    ∧ ∀ e : QueryErr,
        loadProfile genId parseBg (some u) (.ok (some p)) (.error e)
          = .failure "Error loading profile settings"
              (some { title := "Error", description := "Failed to load profile settings",
                      variant := "destructive" }) := by
  refine ⟨by simp [loadProfile, hu], by decide, fun e => by simp [loadProfile, hu]⟩

/-- Witness for C8: the settings-missing outcome at a concrete profile. -/
theorem c8_settings_missing_witness :
    loadProfile (fun _ => "u") (fun _ => none) (some "alice")
        (.ok (some { username := "alice", full_name := "Alice", bio := "", avatar_url := "",
                     id := "id1", custom_title := none }))
        (.ok none)
      = .failure "Profile settings not found" none :=
  (c8_settings_missing (fun _ => "u") (fun _ => none) "alice" (by decide)
    { username := "alice", full_name := "Alice", bio := "", avatar_url := "",
      id := "id1", custom_title := none }).1

/-- Claim C9: a serialized background-style string whose parse throws does
not fail the load: the loader still reaches the success outcome, the
normalized settings carry no background override, and the rendered page
falls back to the theme background. -/
theorem c9_background_parse_failure (genId : Nat → String)
    (parseBg : String → Option BackgroundStyle) (u : String) (hu : u ≠ "")
    (p : Profile) (raw : RawSettings) (s : String)
    (hs : raw.background_style = some s) (hp : parseBg s = none) :
    loadProfile genId parseBg (some u) (.ok (some p)) (.ok (some raw))
      = .success p (typedSettings genId parseBg raw)
    ∧ (typedSettings genId parseBg raw).background_style = none
    ∧ hasBackgroundImage (typedSettings genId parseBg raw) = false
    ∧ (renderProfilePage (typedSettings genId parseBg raw)).themeClass
        = (resolveTheme (some (typedSettings genId parseBg raw).theme_id)).background := by
  have hbs : (typedSettings genId parseBg raw).background_style = none := by
    simp only [typedSettings, hs]
    by_cases h0 : s = "" <;> simp [h0, hp]
  have hno : hasBackgroundImage (typedSettings genId parseBg raw) = false := by
    simp [hasBackgroundImage, hbs]
  refine ⟨by simp [loadProfile, hu], hbs, hno, ?_⟩
  simp [renderProfilePage, hno]

/-- Witness for C9: a concrete unparsable background-style string still
yields a success outcome with the theme background. -/
theorem c9_background_parse_failure_witness :
    loadProfile (fun _ => "u") (fun _ => none) (some "alice")
        (.ok (some { username := "alice", full_name := "Alice", bio := "", avatar_url := "",
                     id := "id1", custom_title := none }))
        (.ok (some { links := .arr [], background_style := some "notjson" }))
      = .success
          { username := "alice", full_name := "Alice", bio := "", avatar_url := "",
            id := "id1", custom_title := none }
          (typedSettings (fun _ => "u") (fun _ => none)
            { links := .arr [], background_style := some "notjson" })
    ∧ (typedSettings (fun _ => "u") (fun _ => none)
        { links := .arr [], background_style := some "notjson" }).background_style = none :=
  ⟨(c9_background_parse_failure (fun _ => "u") (fun _ => none) "alice" (by decide)
      { username := "alice", full_name := "Alice", bio := "", avatar_url := "",
        id := "id1", custom_title := none }
      { links := .arr [], background_style := some "notjson" } "notjson" rfl rfl).1,
   (c9_background_parse_failure (fun _ => "u") (fun _ => none) "alice" (by decide)
      { username := "alice", full_name := "Alice", bio := "", avatar_url := "",
        id := "id1", custom_title := none }
      { links := .arr [], background_style := some "notjson" } "notjson" rfl rfl).2.1⟩

end Pdims
